import Mathlib

/-!
Shallow embedding of `extras/scripts/completion/generate_completion.py`:
the per-shell completion serializers (`serialize_argument_to_zsh`,
`serialize_argument_to_fish`), the `escape_zsh` helper, and the argument
lookup `find_argument_by_target_name`, together with proofs of the
specification claims about them.

Python exceptions are modelled by an explicit error type and fallible
code returns `Except PyError _`.  Machine-level details (file I/O, the
jinja2 template engine) are outside the embedded fragment.
-/

/-- Python exception classes that the embedded code can raise or that the
specification mentions.  `indexError` models `IndexError` (a `LookupError`
subclass in Python), `valueError` models `ValueError`, and `lookupError`
models a bare `LookupError`. -/
inductive PyError where
  | valueError (msg : String)
  | indexError (msg : String)
  | lookupError (msg : String)
deriving DecidableEq

/-- Test whether a fallible result is a Python `LookupError` (the class
named by the spec's error taxonomy).  In Python, `IndexError` is a
subclass of `LookupError`, while `ValueError` is not. -/
def isLookupError {α : Type} : Except PyError α → Bool
  | Except.error (PyError.lookupError _) => true
  | Except.error (PyError.indexError _) => true
  | _ => false

/-- Modelled from the spec: the `configuration` optional-key mapping of an
Argument (the `Argument` class lives in `httpie/cli/options.py`, outside
the embedded file).  Key presence is modelled by `Option` / a flag:
`metavar` and `choices` are present iff `isSome`, and `lazy_choices` is
present iff the boolean is true. -/
structure Configuration where
  metavar : Option String
  choices : Option (List String)
  lazy_choices : Bool
deriving DecidableEq

/-- Modelled from the spec: an Argument descriptor as consumed by the
serializers — ordered `aliases`, the `is_flag` / `is_positional` /
`is_hidden` booleans, the `short_help` text and the `configuration`
mapping.  Attribute access `argument.metavar` / `argument.choices` reads
the corresponding configuration entry. -/
structure Argument where
  aliases : List String
  is_flag : Bool
  is_positional : Bool
  is_hidden : Bool
  short_help : String
  configuration : Configuration
deriving DecidableEq

/-- Modelled from the spec: an ArgumentGroup is an ordered sequence of
Arguments. -/
structure ArgumentGroup where
  arguments : List Argument
deriving DecidableEq

/-- Modelled from the spec: a ParserSpec (Specification) is an ordered
sequence of ArgumentGroups. -/
structure ParserSpec where
  groups : List ArgumentGroup
deriving DecidableEq

/-- All arguments of a specification in traversal order: groups in order,
arguments within a group in order (the iteration order of the nested
`for` loops in the Python source). -/
def allArguments (spec : ParserSpec) : List Argument :=
  (spec.groups.map ArgumentGroup.arguments).flatten

/-- The non-hidden, non-positional arguments bound as `arguments` by
`prepare_objects` (lines 74-80 of the source). -/
def visibleArguments (spec : ParserSpec) : List Argument :=
  (allArguments spec).filter (fun a => !a.is_hidden && !a.is_positional)

/-- Python `sep.join(xs)`: empty string on an empty list, otherwise the
elements interleaved with `sep`. -/
def pyJoin (sep : String) : List String → String
  | [] => ""
  | x :: xs => xs.foldl (fun acc y => acc ++ sep ++ y) x

/-- Replace every occurrence of the character `target` by a backslash
followed by that character (Python `text.replace(target, "\\" + target)`
for a one-character pattern), working on the character list. -/
def escapeCharList (target : Char) : List Char → List Char
  | [] => []
  | c :: rest => (if c = target then ['\\', c] else [c]) ++ escapeCharList target rest

/-- `escape_zsh` (line 97-98 of the source):
`text.replace(':', '\\:')`. -/
def escape_zsh (text : String) : String :=
  String.mk (escapeCharList ':' text.data)

/-- The single-quote character, used by the fish help escaping. -/
def squote : Char := Char.ofNat 39

/-- The fish help escaping `short_help.replace("'", "\\'")`
(line 179 of the source). -/
def fishEscapeHelp (text : String) : String :=
  String.mk (escapeCharList squote text.data)

/-- Python `s.strip(' ')`: remove leading and trailing space characters
(only U+0020, not arbitrary whitespace). -/
def pyStripSpaces (s : String) : String :=
  String.mk (((s.data.dropWhile (fun c => c = ' ')).reverse.dropWhile
    (fun c => c = ' ')).reverse)

/-- Modelled from the spec: stripping of all surrounding whitespace, the
behaviour that the spec's words "strip surrounding whitespace" describe
(to be compared with the source's `strip(' ')`). -/
def specStripWhitespace (s : String) : String :=
  String.mk (((s.data.dropWhile Char.isWhitespace).reverse.dropWhile
    Char.isWhitespace).reverse)

/-- Python `s.lstrip('-')`: drop the leading dash characters. -/
def pyLstripDashes (s : String) : String :=
  String.mk (s.data.dropWhile (fun c => c = '-'))

/-- Python `s.replace('-', '_')` on a one-character pattern: a character
map. -/
def pyDashToUnderscore (s : String) : String :=
  String.mk (s.data.map (fun c => if c = '-' then '_' else c))

/-- Python `s.upper()` restricted to ASCII letters (the alias spellings
the program handles are ASCII). -/
def pyUpper (s : String) : String :=
  String.mk (s.data.map Char.toUpper)

/-- Python `max(xs, key=len)`: the first element of maximal length, or a
`ValueError` on an empty sequence. -/
def pyMaxByLen : List String → Except PyError String
  | [] => Except.error (PyError.valueError "max() arg is an empty sequence")
  | x :: xs => Except.ok (xs.foldl (fun acc y => if acc.length < y.length then y else acc) x)

/-- Metavar resolution of the zsh serializer (lines 123-135 of the
source): the explicit `metavar` configuration entry if present, else, when
choices exist, `max(aliases, key=len).lstrip('-').replace('-', '_').upper()`,
else no metavar. -/
def zshResolvedMetavar (arg : Argument) : Except PyError (Option String) :=
  if arg.configuration.metavar.isSome then
    Except.ok arg.configuration.metavar
  else if arg.configuration.choices.isSome then
    (pyMaxByLen arg.aliases).map (fun m =>
      some (pyUpper (pyDashToUnderscore (pyLstripDashes m))))
  else
    Except.ok none

/-- The `:<metavar>:` piece appended by the zsh serializer (lines 137-141
of the source): present exactly when the resolved metavar is truthy
(neither absent nor the empty string); the emitted metavar is
space-stripped and colon-escaped. -/
def zshMetavarSegment (arg : Argument) : Except PyError (List String) :=
  (zshResolvedMetavar arg).map (fun mv =>
    match mv with
    | some m => if m = "" then [] else [":" ++ escape_zsh (pyStripSpaces m) ++ ":"]
    | none => [])

/-- The `(<choices>)` piece appended by the zsh serializer (lines 143-144
of the source): present exactly when `choices` is configured, the choices
space-joined in their original order. -/
def zshChoicesSegment (arg : Argument) : List String :=
  match arg.configuration.choices with
  | some cs => ["(" ++ pyJoin " " cs ++ ")"]
  | none => []

/-- The parts of the zsh declaration that follow the alias position
(lines 118-144 of the source): the `=` marker for value-taking arguments,
the bracketed help text, the metavar segment and the choices segment, in
statement order. -/
def zshDeclTail (arg : Argument) : Except PyError (List String) :=
  (zshMetavarSegment arg).map (fun mvseg =>
    (if arg.is_flag then [] else ["="])
      ++ ["[" ++ arg.short_help ++ "]"]
      ++ mvseg
      ++ zshChoicesSegment arg)

/-- `serialize_argument_to_zsh` (lines 101-146 of the source).  More than
one alias: a `{a1,a2,...}` prefix before the quoted body; exactly one
alias: the alias embedded at the head of the quoted body; `aliases[0]` on
an empty alias list raises `IndexError`. -/
def serialize_argument_to_zsh (arg : Argument) : Except PyError String :=
  if arg.aliases.length > 1 then
    match zshDeclTail arg with
    | Except.error e => Except.error e
    | Except.ok tail =>
      Except.ok ("\x7b" ++ pyJoin "," arg.aliases ++ "\x7d" ++ "'" ++ pyJoin "" tail ++ "'")
  else
    match arg.aliases with
    | [] => Except.error (PyError.indexError "list index out of range")
    | a0 :: _ =>
      match zshDeclTail arg with
      | Except.error e => Except.error e
      | Except.ok tail => Except.ok ("'" ++ pyJoin "" (a0 :: tail) ++ "'")

/-- The two-slot unpack of the fish serializer (lines 159-163 of the
source): `short_form, long_form = aliases` with the `ValueError` handler
that retries `(long_form,) = aliases`.  Exactly two aliases give
`(short, long)`, exactly one gives `(None, long)`, anything else raises
`ValueError` out of the handler's one-slot unpack. -/
def fishUnpackAliases : List String → Except PyError (Option String × String)
  | [s, l] => Except.ok (some s, l)
  | [l] => Except.ok (none, l)
  | [] => Except.error (PyError.valueError "not enough values to unpack (expected 1, got 0)")
  | _ :: _ :: _ :: _ => Except.error (PyError.valueError "too many values to unpack (expected 1)")

/-- The `-xa "<choices>"` / `-x` piece of the fish declaration
(lines 172-176 of the source). -/
def fishChoicesSegment (arg : Argument) : List String :=
  match arg.configuration.choices with
  | some cs => ["-xa", "\"" ++ pyJoin " " cs ++ "\""]
  | none => if arg.configuration.lazy_choices then ["-x"] else []

/-- The `-s <short>` piece of the fish declaration (lines 165-167 of the
source): emitted when `short_form` is truthy (present and non-empty). -/
def fishShortSegment (short_form : Option String) : List String :=
  match short_form with
  | some s => if s = "" then [] else ["-s", s]
  | none => []

/-- The token list built by `serialize_argument_to_fish`
(lines 153-179 of the source), before the tab join. -/
def fishDecl (arg : Argument) : Except PyError (List String) :=
  match fishUnpackAliases arg.aliases with
  | Except.error e => Except.error e
  | Except.ok (short_form, long_form) =>
    Except.ok (["complete", "-c", "http"]
      ++ fishShortSegment short_form
      ++ ["-l", long_form]
      ++ fishChoicesSegment arg
      ++ ["-d", "'" ++ fishEscapeHelp arg.short_help ++ "'"])

/-- `serialize_argument_to_fish` (lines 149-181 of the source): the token
list joined with single tab characters. -/
def serialize_argument_to_fish (arg : Argument) : Except PyError String :=
  match fishDecl arg with
  | Except.error e => Except.error e
  | Except.ok d => Except.ok (pyJoin "\t" d)

/-- The "targets" of an argument in `find_argument_by_target_name`
(lines 186-190 of the source): the aliases when non-empty, otherwise the
metavar alone.  An aliasless argument without a configured metavar is
modelled as having no targets (in Python that attribute access cannot
succeed). -/
def argTargets (arg : Argument) : List String :=
  match arg.aliases with
  | [] =>
    match arg.configuration.metavar with
    | some m => [m]
    | none => []
  | l => l

/-- `find_argument_by_target_name` (lines 184-195 of the source): the
first argument, in traversal order, whose targets contain `name`;
`raise ValueError(f'Could not find argument with name {name}')` when none
does. -/
def find_argument_by_target_name (spec : ParserSpec) (name : String) : Except PyError Argument :=
  match (allArguments spec).find? (fun a => decide (name ∈ argTargets a)) with
  | some a => Except.ok a
  | none => Except.error (PyError.valueError ("Could not find argument with name " ++ name))

/-- Scanning checker for `escapedAfter`: inside a character list, every
occurrence of `target` whose predecessor is known must be preceded by a
backslash.  `prev` is the character immediately before the current
position. -/
def escapedAfter (target : Char) : Char → List Char → Bool
  | _, [] => true
  | prev, c :: rest => (!(c == target) || (prev == '\\')) && escapedAfter target c rest

/-- Every occurrence of `target` in the list is immediately preceded by a
backslash (in particular `target` does not occur at the head). -/
def allEscaped (target : Char) : List Char → Bool
  | [] => true
  | c :: rest => !(c == target) && escapedAfter target c rest

/-- The C3 claim's reading of the zsh choices rule at one argument: the
choices segment may appear only when a metavar segment was emitted. -/
def zshChoicesOnlyWithMetavar (arg : Argument) : Prop :=
  zshChoicesSegment arg ≠ [] → zshMetavarSegment arg ≠ Except.ok []

/-- An empty configuration mapping. -/
def noCfg : Configuration := ⟨none, none, false⟩

/-- The argument of the spec's example scenario 1:
`{aliases:['-h','--help'], is_flag:true, short_help:'Show help'}`. -/
def c4helpArg : Argument := ⟨["-h", "--help"], true, false, false, "Show help", noCfg⟩

/-- The argument of the spec's example scenario 2:
`{aliases:['--json'], is_flag:false, metavar:'FORMAT', short_help:'Output format'}`. -/
def c4jsonArg : Argument :=
  ⟨["--json"], false, false, false, "Output format", ⟨some "FORMAT", none, false⟩⟩

/-- The argument of the spec's example scenario 3:
`{aliases:['-o','--output'], is_flag:false, short_help:"Write to 'file'"}`. -/
def c2arg : Argument := ⟨["-o", "--output"], false, false, false, "Write to 'file'", noCfg⟩

/-- An argument with choices but no explicit metavar, whose aliases are
`['-o','--output-format']` (the metavar-derivation scenario of the spec). -/
def c5arg : Argument :=
  ⟨["-o", "--output-format"], false, false, false, "Output format",
    ⟨none, some ["json", "csv"], false⟩⟩

/-- An argument with both an explicit metavar and choices (the explicit
metavar must win over derivation). -/
def c5warg : Argument :=
  ⟨["--style"], false, false, false, "Output style", ⟨some "FORMAT", some ["auto"], false⟩⟩

/-- An argument with choices whose derived metavar strips to the empty
string: its only alias is all dashes. -/
def c3cex : Argument := ⟨["--"], true, false, false, "h", ⟨none, some ["a", "b"], false⟩⟩

/-- An argument with choices and an explicit (truthy) metavar. -/
def c3warg : Argument :=
  ⟨["-F", "--format"], false, false, false, "h", ⟨some "FMT", some ["a", "b"], false⟩⟩

/-- An argument whose explicit metavar starts with a tab character:
`strip(' ')` keeps the tab while whitespace-stripping would drop it. -/
def c6cex : Argument := ⟨["-a"], true, false, false, "h", ⟨some "\tM", none, false⟩⟩

/-- An argument whose explicit metavar contains a colon. -/
def c6warg : Argument := ⟨["-a"], true, false, false, "h", ⟨some "A:B", none, false⟩⟩

/-- An argument with three aliases (the fish serializer's failure mode). -/
def c7arg : Argument := ⟨["-a", "-b", "-c"], true, false, false, "h", noCfg⟩

/-- An argument with a short and a long alias and `lazy_choices` set. -/
def c8arg : Argument := ⟨["-j", "--json"], false, false, false, "data as JSON", ⟨none, none, true⟩⟩

/-- An aliasless (positional) argument. -/
def c10empty : Argument := ⟨[], true, true, false, "request URL", ⟨some "URL", none, false⟩⟩

/-- An argument with a single alias. -/
def c10nonempty : Argument := ⟨["--verbose"], true, false, false, "verbose output", noCfg⟩

/-- A flag argument used in the lookup specification. -/
def w1argX : Argument := ⟨["-x", "--xray"], true, false, false, "x", noCfg⟩

/-- A positional argument with empty aliases and metavar `REQUEST_ITEM`
(the spec's example scenario 4). -/
def w1argR : Argument := ⟨[], false, true, false, "request item", ⟨some "REQUEST_ITEM", none, false⟩⟩

/-- A small concrete specification: one group holding `w1argX` then
`w1argR`. -/
def w1spec : ParserSpec := ⟨[⟨[w1argX, w1argR]⟩]⟩

/-! Helper lemmas. -/

theorem pyJoin_foldl_factor (sep : String) (l : List String) (a b : String) :
    l.foldl (fun acc y => acc ++ sep ++ y) (a ++ b)
      = a ++ l.foldl (fun acc y => acc ++ sep ++ y) b := by
  induction l generalizing b with
  | nil => rfl
  | cons x xs ih =>
    simp only [List.foldl_cons]
    have h : a ++ b ++ sep ++ x = a ++ (b ++ sep ++ x) := by
      simp [String.append_assoc]
    rw [h]
    exact ih (b ++ sep ++ x)

theorem pyJoin_empty_cons (a : String) (l : List String) :
    pyJoin "" (a :: l) = a ++ pyJoin "" l := by
  cases l with
  | nil => exact (String.append_empty a).symm
  | cons x xs =>
    simp only [pyJoin, List.foldl_cons]
    have h : a ++ "" ++ x = a ++ x := by rw [String.append_empty]
    rw [h]
    exact pyJoin_foldl_factor "" xs a x

/-! Claim theorems. -/

/-- C9: generation is deterministic — the serializers (and the visible
argument selection of `prepare_objects`) are pure functions, so two
invocations on the same argument (or specification) return equal
strings/lists. -/
theorem serializers_deterministic (arg : Argument) (spec : ParserSpec) :
    serialize_argument_to_zsh arg = serialize_argument_to_zsh arg
  ∧ serialize_argument_to_fish arg = serialize_argument_to_fish arg
  ∧ visibleArguments spec = visibleArguments spec :=
  ⟨rfl, rfl, rfl⟩

/-- C2: evaluation of the fish serializer at the claim's argument
`{aliases:['-o','--output'], is_flag:false, short_help:"Write to 'file'"}`.
The code appends the alias spellings unchanged, so the emitted tokens are
`-s`, `-o` and `-l`, `--output` — not the dash-stripped `-s`, `o` and
`-l`, `output` that the claim (and the fish completion grammar cited by
the code's own comment) requires. -/
theorem fish_keeps_alias_dashes :
    serialize_argument_to_fish c2arg
      = Except.ok "complete\t-c\thttp\t-s\t-o\t-l\t--output\t-d\t'Write to \\'file\\''"
  ∧ ("complete\t-c\thttp\t-s\t-o\t-l\t--output\t-d\t'Write to \\'file\\''" : String)
      ≠ "complete\t-c\thttp\t-s\to\t-l\toutput\t-d\t'Write to \\'file\\''" :=
  ⟨rfl, by decide⟩

/-- C7: an argument with more than two aliases makes the fish serializer
raise — the two-slot unpack fails with `ValueError`, the handler's
one-slot unpack fails again, and the error propagates instead of a
declaration string being returned. -/
theorem fish_three_aliases_error (arg : Argument) (h : 2 < arg.aliases.length) :
    serialize_argument_to_fish arg
      = Except.error (PyError.valueError "too many values to unpack (expected 1)") := by
  have hun : ∀ (l : List String), 2 < l.length →
      fishUnpackAliases l
        = Except.error (PyError.valueError "too many values to unpack (expected 1)") := by
    intro l hl
    match l with
    | [] => simp at hl
    | [a] => simp at hl
    | [a, b] => simp at hl
    | a :: b :: c :: rest => rfl
  unfold serialize_argument_to_fish fishDecl
  rw [hun arg.aliases h]

/-- Witness for C7: the three-alias argument `['-a','-b','-c']` raises. -/
theorem fish_three_aliases_error_witness :
    2 < c7arg.aliases.length
  ∧ serialize_argument_to_fish c7arg
      = Except.error (PyError.valueError "too many values to unpack (expected 1)") :=
  ⟨by decide, fish_three_aliases_error c7arg (by decide)⟩

/-- C10: the zsh serializer is partial in its alias requirement — on an
empty alias list it fails with an `IndexError` reading `aliases[0]` (and
the `max` over an empty alias list, the expression used for metavar
derivation when choices are present, is itself a failing operation),
while any argument with at least one alias serializes successfully. -/
theorem zsh_requires_alias (arg : Argument) :
    (arg.aliases = [] →
      serialize_argument_to_zsh arg
        = Except.error (PyError.indexError "list index out of range"))
  ∧ pyMaxByLen ([] : List String)
      = Except.error (PyError.valueError "max() arg is an empty sequence")
  ∧ (arg.aliases ≠ [] → ∃ s, serialize_argument_to_zsh arg = Except.ok s) := by
  refine ⟨?_, rfl, ?_⟩
  · intro h
    unfold serialize_argument_to_zsh
    rw [h]
    rfl
  · intro h
    obtain ⟨a0, rest, hal⟩ : ∃ a0 rest, arg.aliases = a0 :: rest := by
      cases hcase : arg.aliases with
      | nil => exact absurd hcase h
      | cons x xs => exact ⟨x, xs, rfl⟩
    obtain ⟨mv, hmv⟩ : ∃ mv, zshResolvedMetavar arg = Except.ok mv := by
      unfold zshResolvedMetavar
      by_cases h1 : arg.configuration.metavar.isSome
      · rw [if_pos h1]; exact ⟨_, rfl⟩
      · rw [if_neg h1]
        by_cases h2 : arg.configuration.choices.isSome
        · rw [if_pos h2, hal]; exact ⟨_, rfl⟩
        · rw [if_neg h2]; exact ⟨_, rfl⟩
    obtain ⟨t, ht⟩ : ∃ t, zshDeclTail arg = Except.ok t := by
      unfold zshDeclTail zshMetavarSegment
      rw [hmv]
      exact ⟨_, rfl⟩
    unfold serialize_argument_to_zsh
    by_cases hlen : arg.aliases.length > 1
    · rw [if_pos hlen, ht]
      exact ⟨_, rfl⟩
    · rw [if_neg hlen, hal, ht]
      exact ⟨_, rfl⟩

/-- Witness for C10: the positional (aliasless) argument fails with the
indexing error, and the single-alias argument serializes. -/
theorem zsh_requires_alias_witness :
    serialize_argument_to_zsh c10empty
      = Except.error (PyError.indexError "list index out of range")
  ∧ ∃ s, serialize_argument_to_zsh c10nonempty = Except.ok s :=
  ⟨(zsh_requires_alias c10empty).1 rfl, (zsh_requires_alias c10nonempty).2.2 (by decide)⟩

/-- C4: an argument with exactly one alias has that alias embedded at the
head of the single-quoted body with no brace part; an argument with two
or more aliases gets the comma-joined brace part before the opening quote
and the quoted body is the alias-free declaration tail.  In particular
`{aliases:['-h','--help'], is_flag:true, short_help:'Show help'}`
serializes to `{-h,--help}'[Show help]'`. -/
theorem zsh_alias_brace_rule :
    serialize_argument_to_zsh c4helpArg = Except.ok "\x7b-h,--help\x7d'[Show help]'"
  ∧ (∀ arg a0 t, arg.aliases = [a0] → zshDeclTail arg = Except.ok t →
      serialize_argument_to_zsh arg = Except.ok ("'" ++ a0 ++ pyJoin "" t ++ "'"))
  ∧ (∀ arg t, 2 ≤ arg.aliases.length → zshDeclTail arg = Except.ok t →
      serialize_argument_to_zsh arg
        = Except.ok ("\x7b" ++ pyJoin "," arg.aliases ++ "\x7d" ++ "'" ++ pyJoin "" t ++ "'")) := by
  refine ⟨rfl, ?_, ?_⟩
  · intro arg a0 t hal ht
    unfold serialize_argument_to_zsh
    rw [hal, ht]
    have hlen : ¬ ([a0] : List String).length > 1 := by simp
    rw [if_neg hlen]
    show Except.ok ("'" ++ pyJoin "" (a0 :: t) ++ "'") = _
    rw [pyJoin_empty_cons]
    simp [String.append_assoc]
  · intro arg t hlen ht
    unfold serialize_argument_to_zsh
    rw [if_pos (by omega), ht]

/-- Witness for C4: the single-alias rule applied to the spec's example
scenario 2 argument (which yields `'--json=[Output format]:FORMAT:'`),
together with the multi-alias example. -/
theorem zsh_alias_brace_rule_witness :
    serialize_argument_to_zsh c4jsonArg = Except.ok "'--json=[Output format]:FORMAT:'"
  ∧ serialize_argument_to_zsh c4helpArg = Except.ok "\x7b-h,--help\x7d'[Show help]'" := by
  constructor
  · exact zsh_alias_brace_rule.2.1 c4jsonArg "--json" ["=", "[Output format]", ":FORMAT:"] rfl rfl
  · exact zsh_alias_brace_rule.1

/-- C5: with no explicit metavar but with choices present, the zsh
serializer derives the metavar from the longest alias by stripping leading
dashes, turning the remaining dashes into underscores and uppercasing —
`['-o','--output-format']` yields `OUTPUT_FORMAT` — and an explicit
metavar in the configuration always takes priority over derivation. -/
theorem zsh_metavar_derivation :
    zshResolvedMetavar c5arg = Except.ok (some "OUTPUT_FORMAT")
  ∧ serialize_argument_to_zsh c5arg
      = Except.ok "\x7b-o,--output-format\x7d'=[Output format]:OUTPUT_FORMAT:(json csv)'"
  ∧ (∀ arg, arg.configuration.metavar.isSome = true →
      zshResolvedMetavar arg = Except.ok arg.configuration.metavar)
  ∧ (∀ arg m, arg.configuration.metavar = none → arg.configuration.choices.isSome = true →
      pyMaxByLen arg.aliases = Except.ok m →
      zshResolvedMetavar arg
        = Except.ok (some (pyUpper (pyDashToUnderscore (pyLstripDashes m))))) := by
  refine ⟨rfl, rfl, ?_, ?_⟩
  · intro arg h
    unfold zshResolvedMetavar
    rw [if_pos h]
  · intro arg m hmv hch hmax
    unfold zshResolvedMetavar
    rw [hmv]
    rw [if_neg (by simp), if_pos hch, hmax]
    rfl

/-- Witness for C5: explicit-metavar priority on an argument that also has
choices, and the derivation rule at the `['-o','--output-format']`
argument. -/
theorem zsh_metavar_derivation_witness :
    zshResolvedMetavar c5warg = Except.ok (some "FORMAT")
  ∧ zshResolvedMetavar c5arg
      = Except.ok (some (pyUpper (pyDashToUnderscore (pyLstripDashes "--output-format")))) := by
  constructor
  · exact zsh_metavar_derivation.2.2.1 c5warg rfl
  · exact zsh_metavar_derivation.2.2.2 c5arg "--output-format" rfl rfl rfl

theorem escapedAfter_escapeCharList (t : Char) (ht : t ≠ '\\') (l : List Char) :
    ∀ prev, escapedAfter t prev (escapeCharList t l) = true := by
  induction l with
  | nil => intro prev; rfl
  | cons c rest ih =>
    intro prev
    by_cases hc : c = t
    · subst hc
      have h1 : (('\\' : Char) == c) = false := by
        simp only [beq_eq_false_iff_ne]
        exact fun hcontra => ht hcontra.symm
      simp only [escapeCharList, if_pos rfl, List.cons_append, List.nil_append]
      simp [escapedAfter, h1, ih]
    · have h2 : (c == t) = false := beq_eq_false_iff_ne.mpr hc
      simp only [escapeCharList, if_neg hc, List.cons_append, List.nil_append]
      simp [escapedAfter, h2, ih]

theorem allEscaped_escapeCharList (t : Char) (ht : t ≠ '\\') (l : List Char) :
    allEscaped t (escapeCharList t l) = true := by
  cases l with
  | nil => rfl
  | cons c rest =>
    by_cases hc : c = t
    · subst hc
      have h1 : (('\\' : Char) == c) = false := by
        simp only [beq_eq_false_iff_ne]
        exact fun hcontra => ht hcontra.symm
      simp only [escapeCharList, if_pos rfl, List.cons_append, List.nil_append]
      simp [allEscaped, escapedAfter, h1, escapedAfter_escapeCharList c ht rest]
    · have h2 : (c == t) = false := beq_eq_false_iff_ne.mpr hc
      simp only [escapeCharList, if_neg hc, List.cons_append, List.nil_append]
      simp [allEscaped, h2, escapedAfter_escapeCharList t ht rest]

/-- C6 counterexample: the explicit metavar of `c6cex` begins with a tab
character; the serializer strips only space characters, so the emitted
segment keeps the tab, whereas under the claim's "whitespace-stripped"
reading the segment would be `:M:`. -/
theorem zsh_metavar_strip_spaces_only_cex :
    zshResolvedMetavar c6cex = Except.ok (some "\tM")
  ∧ zshMetavarSegment c6cex = Except.ok [":\tM:"]
  ∧ specStripWhitespace "\tM" = "M"
  ∧ ((":\tM:" : String) ≠ ":" ++ escape_zsh (specStripWhitespace "\tM") ++ ":") :=
  ⟨rfl, rfl, rfl, by decide⟩

/-- C6 (amended): `escape_zsh` replaces every colon by backslash-colon
(`escape_zsh(":") = "\\:"`, and every colon in its output is preceded by a
backslash), and the zsh serializer emits every resolved truthy metavar
stripped of surrounding space characters (spaces only — not all
whitespace) and passed through `escape_zsh` inside the `:<metavar>:`
segment. -/
theorem escape_zsh_colon_escaping :
    escape_zsh ":" = "\\:"
  ∧ (∀ s, (escape_zsh s).data = escapeCharList ':' s.data)
  ∧ (∀ s, allEscaped ':' (escape_zsh s).data = true)
  ∧ (∀ arg mv, zshResolvedMetavar arg = Except.ok (some mv) → mv ≠ "" →
      zshMetavarSegment arg = Except.ok [":" ++ escape_zsh (pyStripSpaces mv) ++ ":"]) := by
  refine ⟨rfl, fun s => rfl, ?_, ?_⟩
  · intro s
    exact allEscaped_escapeCharList ':' (by decide) s.data
  · intro arg mv hmv hne
    unfold zshMetavarSegment
    rw [hmv]
    show Except.ok (if mv = "" then [] else [":" ++ escape_zsh (pyStripSpaces mv) ++ ":"]) = _
    rw [if_neg hne]

/-- Witness for C6: the colon inside the explicit metavar `A:B` is escaped
in the emitted segment. -/
theorem escape_zsh_colon_escaping_witness :
    zshMetavarSegment c6warg = Except.ok [":A\\:B:"] :=
  escape_zsh_colon_escaping.2.2.2 c6warg "A:B" rfl (by decide)

/-- C3 counterexample: `c3cex` has choices, but its derived metavar (from
the all-dash alias `--`) strips to the empty string, so no `:<metavar>:`
segment is emitted while the choice list `(a b)` is still appended — the
choices segment is not "appended only when a metavar segment was
emitted". -/
theorem zsh_choices_without_metavar_cex :
    c3cex.configuration.choices.isSome = true
  ∧ serialize_argument_to_zsh c3cex = Except.ok "'--[h](a b)'"
  ∧ zshMetavarSegment c3cex = Except.ok []
  ∧ zshChoicesSegment c3cex = ["(a b)"]
  ∧ ¬ zshChoicesOnlyWithMetavar c3cex := by
  refine ⟨rfl, rfl, rfl, rfl, ?_⟩
  intro hcl
  exact hcl (by decide) rfl

/-- C3 (amended): for every argument with choices present, the
space-joined choice list in parentheses (in original choice order) is
always appended, as the last piece of the declaration tail, whether or not
a metavar segment was emitted; the `:<metavar>:` segment is present
exactly when the resolved metavar is truthy (non-empty). -/
theorem zsh_choices_always_appended (arg : Argument) (cs : List String)
    (hc : arg.configuration.choices = some cs) :
    zshChoicesSegment arg = ["(" ++ pyJoin " " cs ++ ")"]
  ∧ (∀ t, zshDeclTail arg = Except.ok t →
      ∃ front, t = front ++ ["(" ++ pyJoin " " cs ++ ")"])
  ∧ (∀ mv, zshResolvedMetavar arg = Except.ok mv →
      (zshMetavarSegment arg = Except.ok [] ↔ mv.getD "" = "")) := by
  have hseg : zshChoicesSegment arg = ["(" ++ pyJoin " " cs ++ ")"] := by
    unfold zshChoicesSegment
    rw [hc]
  refine ⟨hseg, ?_, ?_⟩
  · intro t ht
    unfold zshDeclTail at ht
    cases hmv : zshMetavarSegment arg with
    | error e =>
      rw [hmv] at ht
      exact absurd ht (by simp [Except.map])
    | ok mvseg =>
      rw [hmv] at ht
      have ht' : (if arg.is_flag then [] else ["="])
          ++ ["[" ++ arg.short_help ++ "]"] ++ mvseg ++ zshChoicesSegment arg = t :=
        Except.ok.inj ht
      refine ⟨(if arg.is_flag then [] else ["="]) ++ ["[" ++ arg.short_help ++ "]"] ++ mvseg, ?_⟩
      rw [← ht', hseg]
  · intro mv hmv
    unfold zshMetavarSegment
    rw [hmv]
    cases mv with
    | none => simp [Except.map]
    | some m =>
      by_cases hm : m = ""
      · subst hm
        simp [Except.map]
      · simp [Except.map, if_neg hm, hm]

/-- Witness for C3 (amended): applied to `c3warg`, whose choices are
`['a','b']` and whose explicit metavar `FMT` is truthy. -/
theorem zsh_choices_always_appended_witness :
    (∃ front, (["=", "[h]", ":FMT:", "(a b)"] : List String) = front ++ ["(a b)"])
  ∧ (zshMetavarSegment c3warg = Except.ok [] ↔ (some "FMT" : Option String).getD "" = "") :=
  ⟨(zsh_choices_always_appended c3warg ["a", "b"] rfl).2.1 ["=", "[h]", ":FMT:", "(a b)"] rfl,
   (zsh_choices_always_appended c3warg ["a", "b"] rfl).2.2 (some "FMT") rfl⟩

/-- C1 counterexample: at the concrete specification `w1spec`, the name
`zzz` is in no argument's targets, and
`find_argument_by_target_name` raises a `ValueError` — not the
`LookupError` the claim asserts (in Python, `ValueError` is not a
`LookupError`). -/
theorem find_error_is_value_error_cex :
    (allArguments w1spec).all (fun b => !(argTargets b).contains "zzz") = true
  ∧ find_argument_by_target_name w1spec "zzz"
      = Except.error (PyError.valueError "Could not find argument with name zzz")
  ∧ isLookupError (find_argument_by_target_name w1spec "zzz") = false :=
  ⟨rfl, rfl, rfl⟩

/-- C1 (amended): `find_by_target_name` returns the first argument
(groups in order, arguments within a group in order) whose targets —
aliases when non-empty, otherwise the metavar alone — contain the name,
and raises a `ValueError` (not a `LookupError`) when no argument's
targets contain the name. -/
theorem find_argument_by_target_name_spec (spec : ParserSpec) (name : String) :
    (∀ arg, find_argument_by_target_name spec name = Except.ok arg ↔
      ∃ l₁ l₂, allArguments spec = l₁ ++ arg :: l₂ ∧ name ∈ argTargets arg
        ∧ ∀ b ∈ l₁, name ∉ argTargets b)
  ∧ ((∀ b ∈ allArguments spec, name ∉ argTargets b) →
      find_argument_by_target_name spec name
        = Except.error (PyError.valueError ("Could not find argument with name " ++ name))) := by
  have hkey : ∀ arg, (allArguments spec).find? (fun a => decide (name ∈ argTargets a)) = some arg ↔
      ∃ l₁ l₂, allArguments spec = l₁ ++ arg :: l₂ ∧ name ∈ argTargets arg
        ∧ ∀ b ∈ l₁, name ∉ argTargets b := by
    intro arg
    rw [List.find?_eq_some]
    constructor
    · rintro ⟨hp, as, bs, hsplit, hprev⟩
      refine ⟨as, bs, hsplit, by simpa using hp, ?_⟩
      intro b hb
      simpa using hprev b hb
    · rintro ⟨l₁, l₂, hsplit, hmem, hnone⟩
      refine ⟨by simpa using hmem, l₁, l₂, hsplit, ?_⟩
      intro b hb
      simpa using hnone b hb
  constructor
  · intro arg
    rw [← hkey arg]
    unfold find_argument_by_target_name
    cases hf : (allArguments spec).find? (fun a => decide (name ∈ argTargets a)) with
    | none => simp [hf]
    | some a => simp [hf]
  · intro hall
    unfold find_argument_by_target_name
    have hnone : (allArguments spec).find? (fun a => decide (name ∈ argTargets a)) = none := by
      rw [List.find?_eq_none]
      intro x hx
      simpa using hall x hx
    rw [hnone]

/-- Witness for C1 (amended): in `w1spec`, looking up `REQUEST_ITEM` finds
the aliasless positional argument through its metavar (the spec's example
scenario 4), and looking up an absent name gives the `ValueError`. -/
theorem find_argument_by_target_name_spec_witness :
    (∃ l₁ l₂, allArguments w1spec = l₁ ++ w1argR :: l₂
      ∧ "REQUEST_ITEM" ∈ argTargets w1argR
      ∧ ∀ b ∈ l₁, "REQUEST_ITEM" ∉ argTargets b)
  ∧ find_argument_by_target_name w1spec "nope"
      = Except.error (PyError.valueError ("Could not find argument with name " ++ "nope")) :=
  ⟨((find_argument_by_target_name_spec w1spec "REQUEST_ITEM").1 w1argR).mp rfl,
   (find_argument_by_target_name_spec w1spec "nope").2 (by decide)⟩

/-- C8: every successful fish declaration, as a tab-joined token list,
begins with the tokens `complete`, `-c`, `http` and ends with a `-d`
token followed by the short help wrapped in single quotes with every
single quote inside the help escaped by a preceding backslash. -/
theorem fish_declaration_shape (arg : Argument) (d : List String)
    (h : fishDecl arg = Except.ok d) :
    serialize_argument_to_fish arg = Except.ok (pyJoin "\t" d)
  ∧ (∃ mid, d = ["complete", "-c", "http"] ++ mid
      ++ ["-d", "'" ++ fishEscapeHelp arg.short_help ++ "'"])
  ∧ allEscaped squote (fishEscapeHelp arg.short_help).data = true := by
  refine ⟨?_, ?_, ?_⟩
  · unfold serialize_argument_to_fish
    rw [h]
  · unfold fishDecl at h
    cases hu : fishUnpackAliases arg.aliases with
    | error e =>
      rw [hu] at h
      exact absurd h (by simp)
    | ok sl =>
      obtain ⟨sf, lf⟩ := sl
      rw [hu] at h
      have h' := Except.ok.inj h
      refine ⟨fishShortSegment sf ++ ["-l", lf] ++ fishChoicesSegment arg, ?_⟩
      rw [← h']
      simp [List.append_assoc]
  · exact allEscaped_escapeCharList squote (by decide) arg.short_help.data

/-- Witness for C8: the short/long argument with `lazy_choices` produces
a declaration of the required shape. -/
theorem fish_declaration_shape_witness :
    serialize_argument_to_fish c8arg
      = Except.ok (pyJoin "\t" ["complete", "-c", "http", "-s", "-j", "-l", "--json", "-x",
          "-d", "'data as JSON'"])
  ∧ (∃ mid, (["complete", "-c", "http", "-s", "-j", "-l", "--json", "-x",
        "-d", "'data as JSON'"] : List String)
      = ["complete", "-c", "http"] ++ mid
        ++ ["-d", "'" ++ fishEscapeHelp c8arg.short_help ++ "'"])
  ∧ allEscaped squote (fishEscapeHelp c8arg.short_help).data = true :=
  fish_declaration_shape c8arg
    ["complete", "-c", "http", "-s", "-j", "-l", "--json", "-x", "-d", "'data as JSON'"] rfl
